import Mathlib

/-!
Verification of the `createMcp` Svelte store from the `use-mcp` repository
(`src/svelte/createMcp.ts`).

The development shallowly embeds the connection-lifecycle state machine of the
store: the logger, the per-transport connect attempt (`tryConnectWithTransport`),
the top-level `connect()` dispatch with its `auto` fallback branch, the
request-dispatch wrappers (`callTool`, `readResource`, `getPrompt`,
`listResources`, `listPrompts`), `authenticate()`, `doDisconnect`, the
auth-callback `message` listener, and the transport `onclose` handler.

Modelling conventions, applied throughout:
* JavaScript strings become `String`, arrays become `List`, `undefined` becomes
  `Option`.
* Asynchronous control flow is straight-lined: each `await`ed collaborator call
  (handshake, list requests, the `auth(...)` flow) becomes an explicit input
  describing its outcome, and the function computes the resulting state
  transitions, log entries, armed timers and returned status.
* `addLog('debug', ...)` entries are gated behind the `debug` option in the
  source; no claim concerns them, so the flow models record only the
  info/warn/error entries.  The logger model itself (`addLogStep`) keeps the
  debug gate.
* `failConnection(msg, err)` appends a serialized error argument to its log
  entry (`JSON.stringify` of the error); that serialization is not
  representable and is omitted from the recorded message.  Its optional manual
  `authUrl` recovery (from `getLastAttemptedAuthUrl`) is likewise orthogonal to
  every claim and omitted.
* The source keeps two state cells: `stateRef` (assigned only by `setState`)
  and the published snapshot's `state` (assigned by `setState` and by plain
  `setValue` calls).  The ready/failed publishes go through `setValue` alone,
  so the two cells can disagree.  Models of code that reads `stateRef`
  (`callTool`'s guard, `authenticate()`'s branch) take the `stateRef` value as
  their state parameter; `callToolRefModel` keeps both views explicit, and
  `setStateArgs` transcribes every value `setState` is ever called with.
-/

/-- The `UseMcpResult['state']` union of the source. -/
inductive ConnState
  | discovering
  | pending_auth
  | authenticating
  | connecting
  | loading
  | ready
  | failed
deriving DecidableEq, Repr

/-- String rendering of a state, as interpolated into source messages. -/
def stateName : ConnState → String
  | ConnState.discovering => "discovering"
  | ConnState.pending_auth => "pending_auth"
  | ConnState.authenticating => "authenticating"
  | ConnState.connecting => "connecting"
  | ConnState.loading => "loading"
  | ConnState.ready => "ready"
  | ConnState.failed => "failed"

/-- Log levels of `UseMcpResult['log'][number]['level']`. -/
inductive LogLevel
  | debug
  | info
  | warn
  | error
deriving DecidableEq, Repr

/-- One entry of the published `log` array. -/
structure LogEntry where
  level : LogLevel
  message : String
  timestamp : Nat
deriving DecidableEq, Repr

/-- The two concrete transport kinds (`type TransportType = 'http' | 'sse'`). -/
inductive TransportKind
  | http
  | sse
deriving DecidableEq, Repr

/-- Upper-case rendering used in log interpolations (`kind.toUpperCase()`). -/
def kindName : TransportKind → String
  | TransportKind.http => "HTTP"
  | TransportKind.sse => "SSE"

/-- Lower-case rendering, as stored in `successfulTransportRef`. -/
def kindLower : TransportKind → String
  | TransportKind.http => "http"
  | TransportKind.sse => "sse"

/-- The configured preference (`transportType = 'auto' | 'http' | 'sse'`). -/
inductive TransportPref
  | auto
  | http
  | sse
deriving DecidableEq, Repr

/-- Return values of `tryConnectWithTransport`. -/
inductive TryStatus
  | success
  | fallback
  | auth_redirect
  | failed
deriving DecidableEq, Repr

/-- Outcome of the awaited `auth(authProvider, { serverUrl: url })` call:
it resolves to `'AUTHORIZED'` or `'REDIRECT'`, or throws. -/
inductive AuthOutcome
  | authorized
  | redirect
  | threw (msg : String)
deriving DecidableEq, Repr

/-- An error value as observed by the catch blocks: its message string and
whether it is an `instanceof UnauthorizedError`. -/
structure ConnErr where
  msg : String
  unauthorizedInstance : Bool
deriving DecidableEq, Repr

/-- `String.prototype.includes`: contiguous-substring test. -/
def containsSub (s pat : String) : Bool := decide (pat.data <:+: s.data)

/-- The authorization-class test applied in both catch blocks:
`err instanceof UnauthorizedError || message.includes('Unauthorized') ||
message.includes('401')`. -/
def isAuthClass (e : ConnErr) : Bool :=
  e.unauthorizedInstance || containsSub e.msg "Unauthorized" || containsSub e.msg "401"

/-- `AUTH_TIMEOUT = 5 * 60 * 1000`. -/
def authTimeoutMs : Nat := 5 * 60 * 1000

/- ### Logger (`addLog`) -/

/-- `Array.prototype.slice(-n)`: the last `min n l.length` elements. -/
def sliceLast (n : Nat) (l : List α) : List α := l.drop (l.length - n)

/-- One `addLog(level, message, ...)` call acting on the published `log` array:
debug entries are dropped unless the `debug` option is set, nothing is appended
while unmounted, and otherwise the new entry is appended to
`current.log.slice(-100)`. -/
def addLogStep (debugFlag mounted : Bool) (log : List LogEntry) (e : LogEntry) : List LogEntry :=
  if e.level = LogLevel.debug ∧ debugFlag = false then log
  else if mounted = false then log
  else sliceLast 100 log ++ [e]

/-- A whole sequence of `addLog` calls, starting from the empty initial log. -/
def runLog (debugFlag mounted : Bool) (es : List LogEntry) : List LogEntry :=
  es.foldl (addLogStep debugFlag mounted) []

/-- Whether a given `addLog` call passes both gates (debug suppression and the
mounted check) and therefore appends to the published log. -/
def logKept (debugFlag mounted : Bool) (e : LogEntry) : Bool :=
  !(decide (e.level = LogLevel.debug) && !debugFlag) && mounted

/-- The entries of a call sequence that pass `addLogStep`'s gates. -/
def keptEntries (debugFlag mounted : Bool) (es : List LogEntry) : List LogEntry :=
  es.filter (logKept debugFlag mounted)

/- ### Logger lemmas -/

theorem sliceLast_suffix (n : Nat) (l : List α) : sliceLast n l <:+ l :=
  List.drop_suffix _ _

theorem sliceLast_length_le (n : Nat) (l : List α) : (sliceLast n l).length ≤ n := by
  simp only [sliceLast, List.length_drop]
  omega

theorem addLogStep_length_le (debugFlag mounted : Bool) (log : List LogEntry) (e : LogEntry) :
    (addLogStep debugFlag mounted log e).length ≤ max log.length 101 := by
  unfold addLogStep
  split
  · exact le_max_of_le_left le_rfl
  · split
    · exact le_max_of_le_left le_rfl
    · apply le_max_of_le_right
      have h := sliceLast_length_le 100 log
      simp only [List.length_append, List.length_cons, List.length_nil]
      omega

theorem suffix_append_both {l m t : List α} (h : l <:+ m) : l ++ t <:+ m ++ t := by
  obtain ⟨u, hu⟩ := h
  exact ⟨u, by rw [← hu, List.append_assoc]⟩

theorem addLogStep_eq (debugFlag mounted : Bool) (log : List LogEntry) (e : LogEntry) :
    addLogStep debugFlag mounted log e =
      if logKept debugFlag mounted e then sliceLast 100 log ++ [e] else log := by
  unfold addLogStep logKept
  by_cases h1 : e.level = LogLevel.debug <;> cases debugFlag <;> cases mounted <;> simp [h1]

theorem addLogStep_suffix (debugFlag mounted : Bool) (log : List LogEntry) (e : LogEntry) :
    addLogStep debugFlag mounted log e <:+
      log ++ (if logKept debugFlag mounted e then [e] else []) := by
  rw [addLogStep_eq]
  by_cases h : logKept debugFlag mounted e
  · simp only [h, if_true]
    exact suffix_append_both (sliceLast_suffix 100 log)
  · simp only [h, if_false, Bool.false_eq_true, List.append_nil]
    exact List.suffix_rfl

theorem foldl_addLog_length (debugFlag mounted : Bool) (es : List LogEntry) :
    ∀ acc : List LogEntry, acc.length ≤ 101 →
      (es.foldl (addLogStep debugFlag mounted) acc).length ≤ 101 := by
  induction es with
  | nil => intro acc h; simpa using h
  | cons e rest ih =>
    intro acc h
    simp only [List.foldl_cons]
    apply ih
    have := addLogStep_length_le debugFlag mounted acc e
    omega

theorem foldl_addLog_suffix (debugFlag mounted : Bool) (es : List LogEntry) :
    ∀ acc : List LogEntry,
      es.foldl (addLogStep debugFlag mounted) acc <:+ acc ++ keptEntries debugFlag mounted es := by
  induction es with
  | nil =>
    intro acc
    simp [keptEntries]
  | cons e rest ih =>
    intro acc
    simp only [List.foldl_cons]
    have h1 := ih (addLogStep debugFlag mounted acc e)
    have h2 := addLogStep_suffix debugFlag mounted acc e
    have h3 : addLogStep debugFlag mounted acc e ++ keptEntries debugFlag mounted rest <:+
        (acc ++ (if logKept debugFlag mounted e then [e] else [])) ++
          keptEntries debugFlag mounted rest :=
      suffix_append_both h2
    have h4 : keptEntries debugFlag mounted (e :: rest) =
        (if logKept debugFlag mounted e then [e] else []) ++
          keptEntries debugFlag mounted rest := by
      unfold keptEntries
      rw [List.filter_cons]
      split
      · rfl
      · rfl
    rw [h4, ← List.append_assoc]
    exact h1.trans h3

/- ### Published snapshot (`UseMcpResult` value fields) -/

/-- The data fields of the published snapshot (methods omitted). -/
structure Snap where
  state : ConnState
  tools : List String
  resources : List String
  resourceTemplates : List String
  prompts : List String
  error : Option String
  authUrl : Option String
  log : List LogEntry
deriving DecidableEq, Repr

/-- Effect of `doDisconnect(quiet)` on the published snapshot: only when the
store is mounted and the call is not quiet does it reset the state to
`discovering` and clear the four capability lists together with
`error`/`authUrl`. -/
def doDisconnectSnap (quiet mounted : Bool) (s : Snap) : Snap :=
  if mounted = true ∧ quiet = false then
    { s with state := ConnState.discovering,
             tools := [], resources := [], resourceTemplates := [], prompts := [],
             error := none, authUrl := none }
  else s

/-- Effect on the snapshot of the entry of a top-level `connect()` call (after
its guards): `setValue({ error: undefined, authUrl: undefined })` followed by
`setState('discovering')`.  The four capability lists are not touched. -/
def connectEntrySnap (s : Snap) : Snap :=
  { s with error := none, authUrl := none, state := ConnState.discovering }

/- ### Timers -/

/-- What a timer callback does when it fires (with the store still mounted). -/
inductive TimerFire
  | noop
  | failTimeout (msg : String)
deriving DecidableEq, Repr

/-- A timer armed via `setTimeout(cb, delayMs)` into `authTimeout`. -/
structure TimerArm where
  delayMs : Nat
  onFire : TimerFire
deriving DecidableEq, Repr

/- ### One transport attempt (`tryConnectWithTransport`) -/

/-- Outcomes of the awaited collaborator calls made during one
`tryConnectWithTransport(kind)` invocation, plus the option flags it reads.
`createErr = some m` means transport construction threw `m`; `handshake = some e`
means `client.connect(transportInstance)` threw `e`.  `resources`/`prompts`
errors carry no payload the code inspects beyond logging. -/
structure AttemptInput where
  createErr : Option String
  handshake : Option ConnErr
  tools : Except ConnErr (List String)
  resources : Except ConnErr (List String × List String)
  prompts : Except ConnErr (List String)
  preventAutoAuth : Bool
  prepAuthUrl : Except ConnErr String
  authResult : AuthOutcome
  mounted : Bool
deriving Repr

/-- The payload published with `state: 'ready'`. -/
structure ReadyPayload where
  tools : List String
  resources : List String
  resourceTemplates : List String
  prompts : List String
deriving DecidableEq, Repr

/-- Observable result of one `tryConnectWithTransport` invocation: the status
it returns, the states it entered (in order), its non-debug log entries, the
auth timers it armed, the `ready` payload it published (if any), whether it
scheduled a re-entrant `connect()` (direct authorization success), and the
`error`/`authUrl` snapshot fields it set. -/
structure AttemptOut where
  status : TryStatus
  trace : List ConnState
  logs : List (LogLevel × String)
  timers : List TimerArm
  published : Option ReadyPayload
  connectRetriggered : Bool
  errorSet : Option String
  authUrlSet : Option String
deriving DecidableEq, Repr

/-- The catch block of `tryConnectWithTransport` (lines handling any error
thrown by the handshake or by the `tools/list` request), parameterized by the
trace/log accumulated before the error. -/
def catchBlock (k : TransportKind) (inp : AttemptInput) (tr : List ConnState)
    (lg : List (LogLevel × String)) (e : ConnErr) : AttemptOut :=
  let lgW := lg ++ [(LogLevel.warn, "Error during connect (" ++ kindName k ++ "): " ++ e.msg)]
  if isAuthClass e then
    if inp.preventAutoAuth then
      let tr1 := tr ++ [ConnState.pending_auth]
      match inp.prepAuthUrl with
      | Except.ok u =>
        { status := TryStatus.failed, trace := tr1,
          logs := lgW ++ [(LogLevel.info,
            "Authentication required. Manual URL prepared (preventAutoAuth=true).")],
          timers := [], published := none, connectRetriggered := false,
          errorSet := none, authUrlSet := some u }
      | Except.error pe =>
        let em := "Failed to prepare authorization URL: " ++ pe.msg
        { status := TryStatus.failed,
          trace := tr1 ++ (if inp.mounted then [ConnState.failed] else []),
          logs := lgW ++ [(LogLevel.error, em)],
          timers := [], published := none, connectRetriggered := false,
          errorSet := if inp.mounted then some em else none, authUrlSet := none }
    else
      let tr1 := tr ++ [ConnState.authenticating]
      let tm : List TimerArm :=
        [⟨authTimeoutMs, TimerFire.failTimeout "Authentication timed out. Please try again."⟩]
      match inp.authResult with
      | AuthOutcome.authorized =>
        if inp.mounted then
          { status := TryStatus.failed, trace := tr1,
            logs := lgW ++ [(LogLevel.info,
              "Authentication successful. Re-attempting connection...")],
            timers := tm, published := none, connectRetriggered := true,
            errorSet := none, authUrlSet := none }
        else
          { status := TryStatus.failed, trace := tr1, logs := lgW, timers := tm,
            published := none, connectRetriggered := false,
            errorSet := none, authUrlSet := none }
      | AuthOutcome.redirect =>
        if inp.mounted then
          { status := TryStatus.auth_redirect, trace := tr1,
            logs := lgW ++ [(LogLevel.info,
              "Redirecting for authentication. Waiting for callback...")],
            timers := tm, published := none, connectRetriggered := false,
            errorSet := none, authUrlSet := none }
        else
          { status := TryStatus.failed, trace := tr1, logs := lgW, timers := tm,
            published := none, connectRetriggered := false,
            errorSet := none, authUrlSet := none }
      | AuthOutcome.threw am =>
        if inp.mounted then
          let em := "Failed to initiate authentication: " ++ am
          { status := TryStatus.failed, trace := tr1 ++ [ConnState.failed],
            logs := lgW ++ [(LogLevel.error, em)],
            timers := tm, published := none, connectRetriggered := false,
            errorSet := some em, authUrlSet := none }
        else
          { status := TryStatus.failed, trace := tr1, logs := lgW, timers := tm,
            published := none, connectRetriggered := false,
            errorSet := none, authUrlSet := none }
  else
    let em := "Failed to connect via " ++ kindName k ++ ": " ++ e.msg
    { status := TryStatus.failed,
      trace := tr ++ (if inp.mounted then [ConnState.failed] else []),
      logs := lgW ++ [(LogLevel.error, em)],
      timers := [], published := none, connectRetriggered := false,
      errorSet := if inp.mounted then some em else none, authUrlSet := none }

/-- One `tryConnectWithTransport(kind)` invocation, entered with the state
machine in `s0`. -/
def attemptBody (s0 : ConnState) (k : TransportKind) (inp : AttemptInput) : AttemptOut :=
  let lg0 : List (LogLevel × String) :=
    [(LogLevel.info, "Attempting connection with " ++ kindName k ++ " transport...")]
  let tr0 : List ConnState :=
    if s0 = ConnState.authenticating then [] else [ConnState.connecting]
  match inp.createErr with
  | some m =>
    let em := "Failed to create " ++ kindName k ++ " transport: " ++ m
    { status := TryStatus.failed,
      trace := tr0 ++ (if inp.mounted then [ConnState.failed] else []),
      logs := lg0 ++ [(LogLevel.error, em)],
      timers := [], published := none, connectRetriggered := false,
      errorSet := if inp.mounted then some em else none, authUrlSet := none }
  | none =>
    let lg1 := lg0 ++ [(LogLevel.info, "Connecting client via " ++ kindName k ++ "...")]
    match inp.handshake with
    | some e => catchBlock k inp tr0 lg1 e
    | none =>
      let lg2 := lg1 ++ [(LogLevel.info,
        "Client connected via " ++ kindName k ++ ". Loading tools, resources, and prompts...")]
      let tr1 := tr0 ++ [ConnState.loading]
      match inp.tools with
      | Except.error e => catchBlock k inp tr1 lg2 e
      | Except.ok ts =>
        let res := match inp.resources with
          | Except.ok r => r
          | Except.error _ => ([], [])
        let prs := match inp.prompts with
          | Except.ok p => p
          | Except.error _ => []
        if inp.mounted then
          { status := TryStatus.success,
            trace := tr1 ++ [ConnState.ready],
            logs := lg2 ++ [(LogLevel.info,
              "Ready. Tools: " ++ toString ts.length ++
              ", Resources: " ++ toString res.1.length ++
              ", Prompts: " ++ toString prs.length)],
            timers := [], published := some ⟨ts, res.1, res.2, prs⟩,
            connectRetriggered := false, errorSet := none, authUrlSet := none }
        else
          { status := TryStatus.success, trace := tr1, logs := lg2, timers := [],
            published := none, connectRetriggered := false,
            errorSet := none, authUrlSet := none }

/- ### Top-level `connect()` dispatch -/

/-- The state the `stateRef` holds after a trace of `setState` calls. -/
def lastState (s0 : ConnState) (tr : List ConnState) : ConnState :=
  tr.foldl (fun _ s => s) s0

/-- Observable result of one top-level `connect()` call. `ran = false` when one
of the entry guards (in-flight `connecting` flag, unmounted) dropped the call. -/
structure ConnectOut where
  ran : Bool
  trace : List ConnState
  logs : List (LogLevel × String)
  httpAttempted : Bool
  sseAttempted : Bool
  finalStatus : Option TryStatus
  timers : List TimerArm
  published : Option ReadyPayload
deriving DecidableEq, Repr

/-- One top-level `connect()` call: guards, entry into `discovering`, then the
transport dispatch with the `auto` fallback branch.  `httpInp`/`sseInp`
describe what each per-kind attempt would observe if performed. -/
def connectModel (mounted connectingFlag : Bool) (pref : TransportPref)
    (httpInp sseInp : AttemptInput) (attemptNo : Nat) (url : String) : ConnectOut :=
  if connectingFlag = true ∨ mounted = false then
    { ran := false, trace := [], logs := [], httpAttempted := false,
      sseAttempted := false, finalStatus := none, timers := [], published := none }
  else
    let tr0 := [ConnState.discovering]
    let lg0 : List (LogLevel × String) :=
      [(LogLevel.info, "Connecting attempt #" ++ toString attemptNo ++ " to " ++ url ++ "...")]
    match pref with
    | TransportPref.sse =>
      let r := attemptBody ConnState.discovering TransportKind.sse sseInp
      { ran := true, trace := tr0 ++ r.trace, logs := lg0 ++ r.logs,
        httpAttempted := false, sseAttempted := true, finalStatus := some r.status,
        timers := r.timers, published := r.published }
    | TransportPref.http =>
      let r := attemptBody ConnState.discovering TransportKind.http httpInp
      { ran := true, trace := tr0 ++ r.trace, logs := lg0 ++ r.logs,
        httpAttempted := true, sseAttempted := false, finalStatus := some r.status,
        timers := r.timers, published := r.published }
    | TransportPref.auto =>
      let r1 := attemptBody ConnState.discovering TransportKind.http httpInp
      let s1 := lastState ConnState.discovering (tr0 ++ r1.trace)
      if r1.status = TryStatus.fallback ∧ mounted = true ∧ s1 ≠ ConnState.authenticating then
        let r2 := attemptBody s1 TransportKind.sse sseInp
        { ran := true, trace := tr0 ++ r1.trace ++ r2.trace,
          logs := lg0 ++ r1.logs ++
            [(LogLevel.info, "HTTP failed, attempting SSE fallback...")] ++ r2.logs,
          httpAttempted := true, sseAttempted := true, finalStatus := some r2.status,
          timers := r1.timers ++ r2.timers, published := r2.published }
      else
        { ran := true, trace := tr0 ++ r1.trace, logs := lg0 ++ r1.logs,
          httpAttempted := true, sseAttempted := false, finalStatus := some r1.status,
          timers := r1.timers, published := r1.published }

/- ### `stateRef` versus the published state -/

/-- Every argument ever passed to `setState` in the source, one element per
call site: `connect()` entry (`'discovering'`), `tryConnectWithTransport`
entry (`'connecting'`), the `onclose` auto-reconnect branch (`'connecting'`),
after a successful handshake (`'loading'`), the `preventAutoAuth` branch
(`'pending_auth'`), the connect-time auth flow, the `callTool` re-auth path
and `authenticate()` from `pending_auth` (all `'authenticating'`).

`setState` is the only assignment to `stateRef` (whose initial value is
`'discovering'`), so `stateRef` ranges over this list plus the initial value.
In particular `stateRef` is never `'ready'` or `'failed'`: those states are
published through `setValue` alone (the ready publish of the success path,
`failConnection`, and `doDisconnect`), which updates only the snapshot. -/
def setStateArgs : List ConnState :=
  [ConnState.discovering,
   ConnState.connecting,
   ConnState.connecting,
   ConnState.loading,
   ConnState.pending_auth,
   ConnState.authenticating,
   ConnState.authenticating,
   ConnState.authenticating]

/- ### Request-dispatch wrappers -/

/-- How a request-wrapper call returns to its caller: a value, the not-ready
throw, a rethrown request error, or the bare `return`/`return undefined` of the
re-auth paths. -/
inductive MethodOutcome (α : Type)
  | ok (a : α)
  | notReady (msg : String)
  | reqErr (e : ConnErr)
  | noneReturned
deriving DecidableEq, Repr

/-- Observable result of a `callTool` invocation. -/
structure CallToolRun where
  outcome : MethodOutcome String
  requests : List String
  reauthAttempted : Bool
  connectTriggered : Bool
  stateAfter : ConnState
  timers : List TimerArm
deriving DecidableEq, Repr

/-- `callTool(name, args)`, keeping the two state views the source reads
distinct: the guard tests `stateRef` (`if (stateRef !== 'ready' || !client)`)
while the thrown message interpolates the published `current.state`.  In the
program these cells can disagree: `setState` (the only assignment to
`stateRef`) is never called with `'ready'` — see `setStateArgs` — because the
ready publish goes through `setValue` alone, so the guard branch is the only
reachable one and the re-auth body below it is dead code, transcribed here for
fidelity.

`resp` is the outcome of the single `tools/call` request (its result
abstracted to a string), `authResult` the outcome of the `auth(...)` call
should re-authentication run.  When `auth` resolves `'AUTHORIZED'`, the source
clears the timeout, resets `connecting` and invokes `connect()`; the
synchronous prefix of that call moves the published state through
`discovering` to `connecting` before `callTool` resumes, so the final
`if (current.state !== 'authenticating') throw err` check rethrows the
original error. -/
def callToolRefModel (stRef pubState : ConnState) (clientPresent : Bool) (name : String)
    (resp : Except ConnErr String) (authResult : AuthOutcome) (mounted : Bool) : CallToolRun :=
  if stRef ≠ ConnState.ready ∨ clientPresent = false then
    { outcome := MethodOutcome.notReady
        ("MCP client is not ready (current state: " ++ stateName pubState ++
         "). Cannot call tool \"" ++ name ++ "\"."),
      requests := [], reauthAttempted := false, connectTriggered := false,
      stateAfter := stRef, timers := [] }
  else
    match resp with
    | Except.ok r =>
      { outcome := MethodOutcome.ok r, requests := ["tools/call"],
        reauthAttempted := false, connectTriggered := false,
        stateAfter := stRef, timers := [] }
    | Except.error err =>
      if isAuthClass err then
        let tm : List TimerArm := [⟨authTimeoutMs, TimerFire.noop⟩]
        match authResult with
        | AuthOutcome.authorized =>
          if mounted = false then
            { outcome := MethodOutcome.noneReturned, requests := ["tools/call"],
              reauthAttempted := true, connectTriggered := false,
              stateAfter := ConnState.authenticating, timers := tm }
          else
            { outcome := MethodOutcome.reqErr err, requests := ["tools/call"],
              reauthAttempted := true, connectTriggered := true,
              stateAfter := ConnState.connecting, timers := tm }
        | AuthOutcome.redirect =>
          if mounted = false then
            { outcome := MethodOutcome.noneReturned, requests := ["tools/call"],
              reauthAttempted := true, connectTriggered := false,
              stateAfter := ConnState.authenticating, timers := tm }
          else
            { outcome := MethodOutcome.noneReturned, requests := ["tools/call"],
              reauthAttempted := true, connectTriggered := false,
              stateAfter := ConnState.authenticating, timers := tm }
        | AuthOutcome.threw _ =>
          if mounted = false then
            { outcome := MethodOutcome.noneReturned, requests := ["tools/call"],
              reauthAttempted := true, connectTriggered := false,
              stateAfter := ConnState.authenticating, timers := tm }
          else
            { outcome := MethodOutcome.reqErr err, requests := ["tools/call"],
              reauthAttempted := true, connectTriggered := false,
              stateAfter := ConnState.failed, timers := tm }
      else
        { outcome := MethodOutcome.reqErr err, requests := ["tools/call"],
          reauthAttempted := false, connectTriggered := false,
          stateAfter := stRef, timers := [] }

/-- The `callTool` model in the special case where `stateRef` and the
published state agree — the view taken by claims whose property does not
distinguish the two cells. -/
def callToolModel (st : ConnState) (clientPresent : Bool) (name : String)
    (resp : Except ConnErr String) (authResult : AuthOutcome) (mounted : Bool) : CallToolRun :=
  callToolRefModel st st clientPresent name resp authResult mounted

/-- Observable result of the four simpler request wrappers. -/
structure ListRun (α : Type) where
  outcome : MethodOutcome α
  requests : List String
deriving DecidableEq, Repr

/-- `readResource(uri)`. -/
def readResourceModel (st : ConnState) (clientPresent : Bool) (uri : String)
    (resp : Except ConnErr String) : ListRun String :=
  if st ≠ ConnState.ready ∨ clientPresent = false then
    { outcome := MethodOutcome.notReady
        ("MCP client is not ready (current state: " ++ stateName st ++
         "). Cannot read resource \"" ++ uri ++ "\"."),
      requests := [] }
  else
    match resp with
    | Except.ok r => { outcome := MethodOutcome.ok r, requests := ["resources/read"] }
    | Except.error e => { outcome := MethodOutcome.reqErr e, requests := ["resources/read"] }

/-- `getPrompt(name, args)`. -/
def getPromptModel (st : ConnState) (clientPresent : Bool) (name : String)
    (resp : Except ConnErr String) : ListRun String :=
  if st ≠ ConnState.ready ∨ clientPresent = false then
    { outcome := MethodOutcome.notReady
        ("MCP client is not ready (current state: " ++ stateName st ++
         "). Cannot get prompt \"" ++ name ++ "\"."),
      requests := [] }
  else
    match resp with
    | Except.ok r => { outcome := MethodOutcome.ok r, requests := ["prompts/get"] }
    | Except.error e => { outcome := MethodOutcome.reqErr e, requests := ["prompts/get"] }

/-- `listResources()`. -/
def listResourcesModel (st : ConnState) (clientPresent : Bool)
    (resp : Except ConnErr (List String × List String)) : ListRun (List String × List String) :=
  if st ≠ ConnState.ready ∨ clientPresent = false then
    { outcome := MethodOutcome.notReady
        ("MCP client is not ready (current state: " ++ stateName st ++
         "). Cannot list resources."),
      requests := [] }
  else
    match resp with
    | Except.ok r => { outcome := MethodOutcome.ok r, requests := ["resources/list"] }
    | Except.error e => { outcome := MethodOutcome.reqErr e, requests := ["resources/list"] }

/-- `listPrompts()`. -/
def listPromptsModel (st : ConnState) (clientPresent : Bool)
    (resp : Except ConnErr (List String)) : ListRun (List String) :=
  if st ≠ ConnState.ready ∨ clientPresent = false then
    { outcome := MethodOutcome.notReady
        ("MCP client is not ready (current state: " ++ stateName st ++
         "). Cannot list prompts."),
      requests := [] }
  else
    match resp with
    | Except.ok r => { outcome := MethodOutcome.ok r, requests := ["prompts/list"] }
    | Except.error e => { outcome := MethodOutcome.reqErr e, requests := ["prompts/list"] }

/- ### `authenticate()` -/

/-- Which transport-affecting action the `authenticate()` branch takes. -/
inductive AuthBranchAction
  | viaRetry
  | runsAuthFlow
  | noAction
  | freshConnect
deriving DecidableEq, Repr

/-- Observable result of one `authenticate()` call. -/
structure AuthenticateRun where
  action : AuthBranchAction
  trace : List ConnState
  logs : List (LogLevel × String)
  timers : List TimerArm
deriving DecidableEq, Repr

/-- `authenticate()`: logs the unconditional entry message, then branches on
`stateRef` (`const s = stateRef`) — the parameter `st` below is that
`stateRef` value, not the published state.  From `pending_auth` it arms the
auth timer (whose callback is empty in the source) and awaits `auth(...)`
whose outcome is `authResult`.

Because `stateRef` is never `'ready'` or `'failed'` (see `setStateArgs`), the
`ready` and `failed` branches below, though transcribed from the source, are
dead code in the program: from the observable ready/failed states (published
via `setValue` only) the call takes the final catch-all branch. -/
def authenticateModel (st : ConnState) (authResult : AuthOutcome) (mounted : Bool) :
    AuthenticateRun :=
  let lg0 : List (LogLevel × String) := [(LogLevel.info, "Manual authentication requested...")]
  match st with
  | ConnState.failed =>
    { action := AuthBranchAction.viaRetry, trace := [],
      logs := lg0 ++ [(LogLevel.info, "Attempting to reconnect and authenticate via retry..."),
                      (LogLevel.info, "Retry requested...")],
      timers := [] }
  | ConnState.pending_auth =>
    let tm : List TimerArm := [⟨authTimeoutMs, TimerFire.noop⟩]
    match authResult with
    | AuthOutcome.authorized =>
      if mounted = false then
        { action := AuthBranchAction.runsAuthFlow, trace := [ConnState.authenticating],
          logs := lg0, timers := tm }
      else
        { action := AuthBranchAction.runsAuthFlow, trace := [ConnState.authenticating],
          logs := lg0 ++ [(LogLevel.info,
            "Manual authentication successful. Re-attempting connection...")],
          timers := tm }
    | AuthOutcome.redirect =>
      if mounted = false then
        { action := AuthBranchAction.runsAuthFlow, trace := [ConnState.authenticating],
          logs := lg0, timers := tm }
      else
        { action := AuthBranchAction.runsAuthFlow, trace := [ConnState.authenticating],
          logs := lg0 ++ [(LogLevel.info,
            "Redirecting for manual authentication. Waiting for callback...")],
          timers := tm }
    | AuthOutcome.threw am =>
      if mounted = false then
        { action := AuthBranchAction.runsAuthFlow, trace := [ConnState.authenticating],
          logs := lg0, timers := tm }
      else
        let em := "Manual authentication failed: " ++ am
        { action := AuthBranchAction.runsAuthFlow,
          trace := [ConnState.authenticating, ConnState.failed],
          logs := lg0 ++ [(LogLevel.error, em)], timers := tm }
  | ConnState.authenticating =>
    { action := AuthBranchAction.noAction, trace := [],
      logs := lg0 ++ [(LogLevel.warn, "Already attempting authentication.")], timers := [] }
  | ConnState.ready =>
    { action := AuthBranchAction.noAction, trace := [],
      logs := lg0 ++ [(LogLevel.info, "Already authenticated and connected.")], timers := [] }
  | s =>
    { action := AuthBranchAction.freshConnect, trace := [],
      logs := lg0 ++ [(LogLevel.warn,
        "Authentication requested in state " ++ stateName s ++ ". Will attempt connect -> auth.")],
      timers := [] }

/- ### Auth-callback `message` listener -/

/-- A received cross-window message event: its origin and the fields of
`event.data` the listener inspects. -/
structure MsgEvent where
  origin : String
  dataType : Option String
  success : Bool
  errMsg : Option String
deriving DecidableEq, Repr

/-- What the listener does beyond logging. -/
inductive HandlerEffect
  | noEffect
  | reconnect
  | authFailed (msg : String)
deriving DecidableEq, Repr

/-- Observable result of delivering one message event to the listener. -/
structure HandlerOut where
  effect : HandlerEffect
  clearedAuthTimeout : Bool
  logs : List (LogLevel × String)
deriving DecidableEq, Repr

/-- The `messageHandler` registered on mount: it returns immediately unless
`event.origin === window.location.origin`, then acts only on
`event.data.type === 'mcp_auth_callback'`. -/
def messageHandlerModel (pageOrigin : String) (ev : MsgEvent) : HandlerOut :=
  if ev.origin ≠ pageOrigin then
    { effect := HandlerEffect.noEffect, clearedAuthTimeout := false, logs := [] }
  else if ev.dataType = some "mcp_auth_callback" then
    if ev.success then
      { effect := HandlerEffect.reconnect, clearedAuthTimeout := true,
        logs := [(LogLevel.info, "Received auth callback message."),
                 (LogLevel.info, "Authentication successful via popup. Reconnecting client...")] }
    else
      { effect := HandlerEffect.authFailed
          ("Authentication failed in callback: " ++ (ev.errMsg.getD "Unknown reason.")),
        clearedAuthTimeout := true,
        logs := [(LogLevel.info, "Received auth callback message.")] }
  else
    { effect := HandlerEffect.noEffect, clearedAuthTimeout := false, logs := [] }

/- ### Transport `onclose` handler -/

/-- The `autoReconnect` option value (`boolean | number`); `num 0` is falsy in
the source's truthiness test. -/
inductive AutoReconnectOpt
  | bool (b : Bool)
  | num (n : Nat)
deriving DecidableEq, Repr

/-- JavaScript truthiness of the option. -/
def arTruthy : AutoReconnectOpt → Bool
  | AutoReconnectOpt.bool b => b
  | AutoReconnectOpt.num n => decide (n ≠ 0)

/-- The delay used: the number itself when numeric, else the 3000 ms default. -/
def arDelayMs : AutoReconnectOpt → Nat
  | AutoReconnectOpt.num n => n
  | AutoReconnectOpt.bool _ => 3000

/-- Observable result of one `onclose` callback firing. -/
structure OncloseOut where
  stateSet : Option ConnState
  reconnectDelayMs : Option Nat
  failedWith : Option String
  logs : List (LogLevel × String)
deriving DecidableEq, Repr

/-- The `onclose` handler attached to each transport: ignores the event while
unmounted or while a top-level connect sequence is in flight; otherwise either
schedules a reconnect (from `ready` with `autoReconnect` truthy) or records a
failure (unless already `failed`/`authenticating`). -/
def oncloseModel (mounted connectingFlag : Bool) (st : ConnState)
    (ar : AutoReconnectOpt) (succ : Option TransportKind) : OncloseOut :=
  if mounted = false ∨ connectingFlag = true then
    { stateSet := none, reconnectDelayMs := none, failedWith := none, logs := [] }
  else
    let lg : List (LogLevel × String) :=
      [(LogLevel.info, "Transport connection closed (" ++
        (match succ with | some k => kindLower k | none => "unknown") ++ " type).")]
    if st = ConnState.ready ∧ arTruthy ar = true then
      let d := arDelayMs ar
      { stateSet := some ConnState.connecting, reconnectDelayMs := some d, failedWith := none,
        logs := lg ++ [(LogLevel.info, "Attempting to reconnect in " ++ toString d ++ "ms...")] }
    else if st ≠ ConnState.failed ∧ st ≠ ConnState.authenticating then
      { stateSet := some ConnState.failed, reconnectDelayMs := none,
        failedWith := some "Connection closed unexpectedly.",
        logs := lg ++ [(LogLevel.error, "Connection closed unexpectedly.")] }
    else
      { stateSet := none, reconnectDelayMs := none, failedWith := none, logs := lg }


set_option maxRecDepth 20000

/- ### Helper lemmas -/

theorem catchBlock_status_ne_fallback (k : TransportKind) (inp : AttemptInput)
    (tr : List ConnState) (lg : List (LogLevel × String)) (e : ConnErr) :
    (catchBlock k inp tr lg e).status ≠ TryStatus.fallback := by
  unfold catchBlock
  repeat' split
  all_goals simp

theorem catchBlock_status_ne_success (k : TransportKind) (inp : AttemptInput)
    (tr : List ConnState) (lg : List (LogLevel × String)) (e : ConnErr) :
    (catchBlock k inp tr lg e).status ≠ TryStatus.success := by
  unfold catchBlock
  repeat' split
  all_goals simp

theorem catchBlock_no_ready (k : TransportKind) (inp : AttemptInput)
    (tr : List ConnState) (lg : List (LogLevel × String)) (e : ConnErr)
    (h : ConnState.ready ∉ tr) :
    ConnState.ready ∉ (catchBlock k inp tr lg e).trace := by
  unfold catchBlock
  repeat' split
  all_goals simp_all

theorem catchBlock_nonauth_trace (k : TransportKind) (inp : AttemptInput)
    (tr : List ConnState) (lg : List (LogLevel × String)) (e : ConnErr)
    (hna : isAuthClass e = false) (hm : inp.mounted = true) :
    (catchBlock k inp tr lg e).trace = tr ++ [ConnState.failed] := by
  unfold catchBlock
  rw [if_neg (by simp [hna])]
  simp [hm]

theorem attemptBody_status_ne_fallback (s0 : ConnState) (k : TransportKind)
    (inp : AttemptInput) : (attemptBody s0 k inp).status ≠ TryStatus.fallback := by
  unfold attemptBody
  repeat' split
  all_goals first
    | exact catchBlock_status_ne_fallback _ _ _ _ _
    | simp

theorem lastState_append_single (s0 : ConnState) (l : List ConnState) (x : ConnState) :
    lastState s0 (l ++ [x]) = x := by
  simp [lastState, List.foldl_append]

/- ### Concrete inputs used by closed theorems -/

/-- An attempt input in which every collaborator call succeeds. -/
def allOkInput : AttemptInput :=
  { createErr := none, handshake := none,
    tools := Except.ok ["echo"],
    resources := Except.ok (["resA"], ["tmplA"]),
    prompts := Except.ok ["promptA"],
    preventAutoAuth := false,
    prepAuthUrl := Except.ok "https://auth.example/authorize",
    authResult := AuthOutcome.redirect, mounted := true }

/-- Attempt input whose handshake throws a non-authorization network error. -/
def httpNetFail : AttemptInput := { allOkInput with handshake := some ⟨"fetch failed", false⟩ }

/-- Attempt input whose handshake throws an authorization error. -/
def httpAuthFail : AttemptInput := { allOkInput with handshake := some ⟨"Unauthorized", true⟩ }

/-- The `auto`-mode connect call of the C1 scenario: http fails with a non-auth
network error while an sse attempt would succeed. -/
def c1Conn : ConnectOut :=
  connectModel true false TransportPref.auto httpNetFail allOkInput 1 "https://example.com/mcp"

/- ### Claims -/

/-- Claim C1: in `auto` mode, after the http attempt fails with a non-authorization
error, the code never performs the sse fallback hop the claim describes:
`tryConnectWithTransport` has no path returning `'fallback'`, so the `auto`
branch treats the http failure as final.  In the claimed scenario the state
ends at `failed` without ever entering `connecting(sse)`, `loading` or `ready`,
and no fallback log entry is produced. -/
theorem c1_auto_fallback_dead :
    (∀ (s0 : ConnState) (k : TransportKind) (inp : AttemptInput),
      (attemptBody s0 k inp).status ≠ TryStatus.fallback) ∧
    c1Conn.sseAttempted = false ∧
    c1Conn.finalStatus = some TryStatus.failed ∧
    ConnState.ready ∉ c1Conn.trace ∧
    (c1Conn.logs.filter (fun p => p.2 = "HTTP failed, attempting SSE fallback...")).length = 0 := by
  refine ⟨attemptBody_status_ne_fallback, ?_, ?_, ?_, ?_⟩ <;> decide

/-- Counterexample for C2: after 101 gate-passing `addLog` calls the published log
holds 101 entries, so the claimed bound of 100 is violated. -/
theorem c2_log_exceeds_100 :
    (runLog true true (List.replicate 101 ⟨LogLevel.info, "m", 0⟩)).length = 101 ∧
    100 < 101 := by
  constructor
  · decide
  · decide

/-- Claim C2 (amended): for every sequence of `addLog` calls the published log holds
at most 101 entries (`slice(-100)` plus the appended entry), and the retained
entries are a suffix of the gate-passing appended sequence — never reordered,
only the oldest dropped from the front, always the most recent ones. -/
theorem c2_log_bound_and_order (debugFlag mounted : Bool) (es : List LogEntry) :
    (runLog debugFlag mounted es).length ≤ 101 ∧
    runLog debugFlag mounted es <:+ keptEntries debugFlag mounted es := by
  constructor
  · exact foldl_addLog_length debugFlag mounted es [] (by simp)
  · have h := foldl_addLog_suffix debugFlag mounted es []
    simpa using h

/-- Claim C3: in every state other than `ready` each of the five request wrappers
fails immediately with the not-ready error naming the current state and issues
no request. -/
theorem c3_not_ready_guards (st : ConnState) (h : st ≠ ConnState.ready)
    (clientPresent : Bool) (name uri : String)
    (respT : Except ConnErr String) (authResult : AuthOutcome) (mounted : Bool)
    (respR : Except ConnErr String)
    (respG : Except ConnErr String)
    (respL : Except ConnErr (List String × List String))
    (respP : Except ConnErr (List String)) :
    callToolModel st clientPresent name respT authResult mounted =
      { outcome := MethodOutcome.notReady
          ("MCP client is not ready (current state: " ++ stateName st ++
           "). Cannot call tool \"" ++ name ++ "\"."),
        requests := [], reauthAttempted := false, connectTriggered := false,
        stateAfter := st, timers := [] } ∧
    readResourceModel st clientPresent uri respR =
      { outcome := MethodOutcome.notReady
          ("MCP client is not ready (current state: " ++ stateName st ++
           "). Cannot read resource \"" ++ uri ++ "\"."),
        requests := [] } ∧
    getPromptModel st clientPresent name respG =
      { outcome := MethodOutcome.notReady
          ("MCP client is not ready (current state: " ++ stateName st ++
           "). Cannot get prompt \"" ++ name ++ "\"."),
        requests := [] } ∧
    listResourcesModel st clientPresent respL =
      { outcome := MethodOutcome.notReady
          ("MCP client is not ready (current state: " ++ stateName st ++
           "). Cannot list resources."),
        requests := [] } ∧
    listPromptsModel st clientPresent respP =
      { outcome := MethodOutcome.notReady
          ("MCP client is not ready (current state: " ++ stateName st ++
           "). Cannot list prompts."),
        requests := [] } := by
  refine ⟨?_, ?_, ?_, ?_, ?_⟩ <;>
    simp [callToolModel, callToolRefModel, readResourceModel, getPromptModel,
      listResourcesModel, listPromptsModel, h]

/-- Witness for C3: the guards at the concrete state `connecting`. -/
theorem c3_witness :
    callToolModel ConnState.connecting true "echo" (Except.ok "r") AuthOutcome.redirect true =
      { outcome := MethodOutcome.notReady
          ("MCP client is not ready (current state: " ++ stateName ConnState.connecting ++
           "). Cannot call tool \"echo\"."),
        requests := [], reauthAttempted := false, connectTriggered := false,
        stateAfter := ConnState.connecting, timers := [] } :=
  (c3_not_ready_guards ConnState.connecting (by decide) true "echo" "res://u"
    (Except.ok "r") AuthOutcome.redirect true (Except.ok "r") (Except.ok "r")
    (Except.ok ([], [])) (Except.ok [])).1

/-- Claim C4: for an attempt whose transport construction and handshake succeed (and
with the store mounted), the state reaches `ready` exactly when the
`tools/list` request succeeds; a `resources/list` and `prompts/list` failure
alone degrades to empty published lists, while a non-auth `tools/list` failure
leaves the attempt in `failed`. -/
theorem c4_ready_iff_tools (s0 : ConnState) (k : TransportKind) (inp : AttemptInput)
    (hc : inp.createErr = none) (hh : inp.handshake = none) (hm : inp.mounted = true) :
    (ConnState.ready ∈ (attemptBody s0 k inp).trace ↔ inp.tools.isOk = true) ∧
    ((attemptBody s0 k inp).status = TryStatus.success ↔ inp.tools.isOk = true) ∧
    (∀ ts, inp.tools = Except.ok ts → inp.resources.isOk = false → inp.prompts.isOk = false →
      (attemptBody s0 k inp).published = some ⟨ts, [], [], []⟩) ∧
    (∀ e, inp.tools = Except.error e → isAuthClass e = false →
      lastState s0 (attemptBody s0 k inp).trace = ConnState.failed) := by
  rcases htools : inp.tools with e | ts
  · -- tools/list failed: the attempt lands in the catch block
    have hred : attemptBody s0 k inp =
        catchBlock k inp
          ((if s0 = ConnState.authenticating then [] else [ConnState.connecting]) ++
            [ConnState.loading])
          ([(LogLevel.info, "Attempting connection with " ++ kindName k ++ " transport...")] ++
           [(LogLevel.info, "Connecting client via " ++ kindName k ++ "...")] ++
           [(LogLevel.info, "Client connected via " ++ kindName k ++
             ". Loading tools, resources, and prompts...")]) e := by
      simp [attemptBody, hc, hh, htools]
    refine ⟨?_, ?_, ?_, ?_⟩
    · rw [hred]
      simp only [Except.isOk, Except.toBool, iff_false, Bool.false_eq_true]
      apply catchBlock_no_ready
      by_cases hs : s0 = ConnState.authenticating <;> simp [hs]
    · rw [hred]
      simp only [Except.isOk, Except.toBool, iff_false, Bool.false_eq_true]
      apply catchBlock_status_ne_success
    · intro ts hts
      exact absurd hts (by simp)
    · intro e2 he2 hna
      injection he2 with he
      subst he
      rw [hred, catchBlock_nonauth_trace _ _ _ _ _ hna hm]
      exact lastState_append_single s0 _ ConnState.failed
  · -- tools/list succeeded
    have hred : attemptBody s0 k inp =
        { status := TryStatus.success,
          trace := ((if s0 = ConnState.authenticating then [] else [ConnState.connecting]) ++
            [ConnState.loading]) ++ [ConnState.ready],
          logs := ([(LogLevel.info, "Attempting connection with " ++ kindName k ++ " transport...")] ++
           [(LogLevel.info, "Connecting client via " ++ kindName k ++ "...")] ++
           [(LogLevel.info, "Client connected via " ++ kindName k ++
             ". Loading tools, resources, and prompts...")]) ++
            [(LogLevel.info,
              "Ready. Tools: " ++ toString ts.length ++
              ", Resources: " ++ toString (match inp.resources with
                | Except.ok r => r
                | Except.error _ => ([], [])).1.length ++
              ", Prompts: " ++ toString (match inp.prompts with
                | Except.ok p => p
                | Except.error _ => []).length)],
          timers := [],
          published := some ⟨ts,
            (match inp.resources with
              | Except.ok r => r
              | Except.error _ => ([], [])).1,
            (match inp.resources with
              | Except.ok r => r
              | Except.error _ => ([], [])).2,
            (match inp.prompts with
              | Except.ok p => p
              | Except.error _ => [])⟩,
          connectRetriggered := false, errorSet := none, authUrlSet := none } := by
      simp [attemptBody, hc, hh, htools, hm]
    refine ⟨?_, ?_, ?_, ?_⟩
    · rw [hred]
      simp [Except.isOk, Except.toBool]
    · rw [hred]
      simp [Except.isOk, Except.toBool]
    · intro ts2 hts2 hres hpr
      injection hts2 with hts
      subst hts
      rcases hr : inp.resources with er | r
      · rcases hp : inp.prompts with ep | p
        · rw [hred]
          simp [hr, hp]
        · rw [hp] at hpr
          simp [Except.isOk, Except.toBool] at hpr
      · rw [hr] at hres
        simp [Except.isOk, Except.toBool] at hres
    · intro e he
      exact absurd he (by simp)

/-- Witness for C4: a concrete attempt in which the handshake succeeds, the tools
request succeeds and both optional list requests fail. -/
theorem c4_witness :
    ConnState.ready ∈
      (attemptBody ConnState.discovering TransportKind.http
        { allOkInput with resources := Except.error ⟨"Method not found", false⟩,
                          prompts := Except.error ⟨"Method not found", false⟩ }).trace ↔
    ({ allOkInput with resources := Except.error ⟨"Method not found", false⟩,
                       prompts := Except.error ⟨"Method not found", false⟩ } : AttemptInput).tools.isOk = true :=
  (c4_ready_iff_tools ConnState.discovering TransportKind.http _ rfl rfl rfl).1

/-- Claim C5: the claimed mid-session re-authentication can never run.
`callTool`'s guard reads `stateRef`, and `setState` never assigns `'ready'`
(the ready publish goes through `setValue` alone), so for every value
`stateRef` can hold — the initial `'discovering'` or a `setStateArgs` element —
`callTool` throws the not-ready error immediately, issues no `tools/call`
request and attempts no re-authentication; the re-auth body is dead code.  At
the failing input (published state `'ready'`, `stateRef` left at `'loading'`
by the ready publish) the thrown message even names `'ready'` as the current
state. -/
theorem c5_reauth_unreachable :
    ConnState.ready ∉ setStateArgs ∧
    (∀ (s pubSt : ConnState) (cp : Bool) (name : String) (resp : Except ConnErr String)
        (a : AuthOutcome) (m : Bool),
      s = ConnState.discovering ∨ s ∈ setStateArgs →
      callToolRefModel s pubSt cp name resp a m =
        { outcome := MethodOutcome.notReady
            ("MCP client is not ready (current state: " ++ stateName pubSt ++
             "). Cannot call tool \"" ++ name ++ "\"."),
          requests := [], reauthAttempted := false, connectTriggered := false,
          stateAfter := s, timers := [] }) ∧
    callToolRefModel ConnState.loading ConnState.ready true "echo"
        (Except.error ⟨"Unauthorized", true⟩) AuthOutcome.authorized true =
      { outcome := MethodOutcome.notReady
          "MCP client is not ready (current state: ready). Cannot call tool \"echo\".",
        requests := [], reauthAttempted := false, connectTriggered := false,
        stateAfter := ConnState.loading, timers := [] } := by
  refine ⟨by decide, ?_, by decide⟩
  intro s pubSt cp name resp a m hs
  have hne : s ≠ ConnState.ready := by
    rcases hs with h | h
    · subst h; decide
    · simp only [setStateArgs, List.mem_cons, List.not_mem_nil, or_false] at h
      rcases h with h|h|h|h|h|h|h|h <;> (subst h; decide)
  simp [callToolRefModel, hne]

/-- Witness for C5: the guard at the concrete reachable `stateRef` value
`'loading'` with the published state `'pending_auth'`. -/
theorem c5_unreachable_witness :
    callToolRefModel ConnState.loading ConnState.pending_auth true "echo" (Except.ok "r")
        AuthOutcome.redirect true =
      { outcome := MethodOutcome.notReady
          ("MCP client is not ready (current state: " ++ stateName ConnState.pending_auth ++
           "). Cannot call tool \"echo\"."),
        requests := [], reauthAttempted := false, connectTriggered := false,
        stateAfter := ConnState.loading, timers := [] } :=
  c5_reauth_unreachable.2.1 ConnState.loading ConnState.pending_auth true "echo"
    (Except.ok "r") AuthOutcome.redirect true (Or.inr (by decide))

/-- Claim C6: all three entries into `authenticating` arm a timer with the 5-minute
default, but only the connect-time site installs a callback that fails the
attempt with a timeout error; the timers armed by the `callTool` re-auth path
and by `authenticate()` from `pending_auth` have empty callbacks
(`setTimeout(() => {}, AUTH_TIMEOUT)`) that do nothing when they fire. -/
theorem c6_auth_timer_callbacks :
    authTimeoutMs = 5 * 60 * 1000 ∧
    (attemptBody ConnState.discovering TransportKind.http httpAuthFail).timers =
      [⟨authTimeoutMs, TimerFire.failTimeout "Authentication timed out. Please try again."⟩] ∧
    (callToolModel ConnState.ready true "echo" (Except.error ⟨"Unauthorized", true⟩)
        AuthOutcome.redirect true).timers = [⟨authTimeoutMs, TimerFire.noop⟩] ∧
    (authenticateModel ConnState.pending_auth AuthOutcome.redirect true).timers =
      [⟨authTimeoutMs, TimerFire.noop⟩] := by
  refine ⟨rfl, ?_, ?_, ?_⟩ <;> decide

/-- Claim C7: the auth-callback listener acts on a message only after its origin
matched the page origin; a message from any other origin — in particular one
merely listed in a configured `allowedOrigins` allow-list — produces no effect,
clears no timeout and appends no log entry. -/
theorem c7_origin_filtering (pageOrigin : String) (allowedOrigins : List String)
    (ev : MsgEvent) (hne : ev.origin ≠ pageOrigin) :
    messageHandlerModel pageOrigin ev =
      { effect := HandlerEffect.noEffect, clearedAuthTimeout := false, logs := [] } ∧
    (∀ ev2 : MsgEvent, (messageHandlerModel pageOrigin ev2).effect ≠ HandlerEffect.noEffect →
      ev2.origin = pageOrigin ∨ ev2.origin ∈ allowedOrigins) := by
  constructor
  · simp [messageHandlerModel, hne]
  · intro ev2 hact
    by_cases h2 : ev2.origin = pageOrigin
    · exact Or.inl h2
    · exact absurd (by simp [messageHandlerModel, h2]) hact

/-- Witness for C7: a forged callback message from a foreign origin is ignored. -/
theorem c7_witness :
    messageHandlerModel "https://app.example"
      ⟨"https://attacker.example", some "mcp_auth_callback", true, none⟩ =
      { effect := HandlerEffect.noEffect, clearedAuthTimeout := false, logs := [] } :=
  (c7_origin_filtering "https://app.example" []
    ⟨"https://attacker.example", some "mcp_auth_callback", true, none⟩ (by decide)).1

/-- The snapshot used by the C8 counterexample: a connected session with
non-empty capability lists. -/
def c8Snap : Snap :=
  { state := ConnState.ready, tools := ["toolA"], resources := ["resA"],
    resourceTemplates := ["tmplA"], prompts := ["promptA"],
    error := none, authUrl := none, log := [] }

/-- Counterexample for C8: a new `connect()` re-enters `discovering` without
clearing the capability lists — only `error` and `authUrl` are reset. -/
theorem c8_connect_keeps_lists :
    (connectEntrySnap c8Snap).state = ConnState.discovering ∧
    (connectEntrySnap c8Snap).tools = ["toolA"] ∧
    ¬((connectEntrySnap c8Snap).tools = [] ∧ (connectEntrySnap c8Snap).resources = [] ∧
      (connectEntrySnap c8Snap).resourceTemplates = [] ∧
      (connectEntrySnap c8Snap).prompts = []) := by
  decide

/-- Claim C8 (amended): the four capability lists are cleared on disconnect (mounted,
non-quiet `doDisconnect`), which also re-enters `discovering`; the re-entry
into `discovering` at the start of a new `connect()` resets only `error` and
`authUrl` and leaves all four lists unchanged. -/
theorem c8_clear_on_disconnect_only (s : Snap) :
    (doDisconnectSnap false true s).state = ConnState.discovering ∧
    (doDisconnectSnap false true s).tools = [] ∧
    (doDisconnectSnap false true s).resources = [] ∧
    (doDisconnectSnap false true s).resourceTemplates = [] ∧
    (doDisconnectSnap false true s).prompts = [] ∧
    (doDisconnectSnap false true s).error = none ∧
    (doDisconnectSnap false true s).authUrl = none ∧
    (connectEntrySnap s).state = ConnState.discovering ∧
    (connectEntrySnap s).error = none ∧
    (connectEntrySnap s).authUrl = none ∧
    (connectEntrySnap s).tools = s.tools ∧
    (connectEntrySnap s).resources = s.resources ∧
    (connectEntrySnap s).resourceTemplates = s.resourceTemplates ∧
    (connectEntrySnap s).prompts = s.prompts := by
  simp [doDisconnectSnap, connectEntrySnap]

/-- Claim C9: `authenticate()` branches on `stateRef`, which `setState` never
assigns `'ready'` or `'failed'`, so the branches the claim describes for those
states are dead code.  For every reachable `stateRef` value the call never
delegates to `retry()` (the `failed` branch) and never takes the `ready`
no-op branch (whose "Already authenticated and connected." entry never
appears; the only reachable no-op is the `authenticating` warn branch).  At
the failing input — the published state is `'ready'`, `stateRef` left at
`'loading'` by the ready publish — the call takes the catch-all branch:
a warn log plus a fresh `connect()`, i.e. state changes and transport
activity rather than the claimed no-op. -/
theorem c9_authenticate_stateref_divergence :
    (ConnState.ready ∉ setStateArgs ∧ ConnState.failed ∉ setStateArgs) ∧
    (∀ (s : ConnState) (a : AuthOutcome) (m : Bool),
      s = ConnState.discovering ∨ s ∈ setStateArgs →
      (authenticateModel s a m).action ≠ AuthBranchAction.viaRetry ∧
      ((authenticateModel s a m).action = AuthBranchAction.noAction →
        (authenticateModel s a m).logs =
          [(LogLevel.info, "Manual authentication requested..."),
           (LogLevel.warn, "Already attempting authentication.")])) ∧
    authenticateModel ConnState.loading AuthOutcome.redirect true =
      { action := AuthBranchAction.freshConnect, trace := [],
        logs := [(LogLevel.info, "Manual authentication requested..."),
                 (LogLevel.warn,
                  "Authentication requested in state loading. Will attempt connect -> auth.")],
        timers := [] } := by
  refine ⟨by decide, ?_, by decide⟩
  intro s a m hs
  have : s = ConnState.discovering ∨ s = ConnState.connecting ∨ s = ConnState.loading ∨
      s = ConnState.pending_auth ∨ s = ConnState.authenticating := by
    rcases hs with h | h
    · exact Or.inl h
    · simp only [setStateArgs, List.mem_cons, List.not_mem_nil, or_false] at h
      tauto
  rcases this with h|h|h|h|h <;> subst h <;> cases a <;> cases m <;> simp [authenticateModel]

/-- Witness for C9: the catch-all branch at the concrete reachable `stateRef`
value `'loading'`. -/
theorem c9_divergence_witness :
    (authenticateModel ConnState.loading AuthOutcome.redirect true).action ≠
      AuthBranchAction.viaRetry ∧
    ((authenticateModel ConnState.loading AuthOutcome.redirect true).action =
        AuthBranchAction.noAction →
      (authenticateModel ConnState.loading AuthOutcome.redirect true).logs =
        [(LogLevel.info, "Manual authentication requested..."),
         (LogLevel.warn, "Already attempting authentication.")]) :=
  c9_authenticate_stateref_divergence.2.1 ConnState.loading AuthOutcome.redirect true
    (Or.inr (by decide))

/-- Claim C10: a transport `onclose` event firing while a connect sequence is in
flight (`connecting` set) or after unmount is ignored entirely — no state
transition, no reconnect schedule, no failure, not even a log entry. -/
theorem c10_onclose_ignored :
    (∀ (c : Bool) (st : ConnState) (ar : AutoReconnectOpt) (succ : Option TransportKind),
      oncloseModel false c st ar succ =
        { stateSet := none, reconnectDelayMs := none, failedWith := none, logs := [] }) ∧
    (∀ (m : Bool) (st : ConnState) (ar : AutoReconnectOpt) (succ : Option TransportKind),
      oncloseModel m true st ar succ =
        { stateSet := none, reconnectDelayMs := none, failedWith := none, logs := [] }) := by
  constructor <;> (intro x st ar succ; simp [oncloseModel])
